import Mathlib

/-!
Verification of the CrowdVision-AI frame-to-metrics pipeline.

Shallow embedding of the detection / risk-classification / alerting code:
* `WebcamFeed` embeds `src/components/webcam-feed.tsx` (`generateMockDetections`,
  `detectCrowd`, `initializeWebcam`, `stopWebcam`, and the count/risk display);
* `DetectApi` embeds the `/api/detect-crowd` route handlers
  (the mock-backed `POST` of `src/unnamed/part_004` / `part_006` and the
  ML-proxy `POST` of `src/unnamed/part_003`).

Randomness (JavaScript `Math.random()`) is modelled as an explicit stream
`Rand : ℕ → ℚ` of draws, indexed in call order, each draw lying in `[0, 1)`.
-/

namespace CrowdVision

/-- The discrete density / risk level `"low" | "medium" | "high"`. -/
inductive RiskLevel
  | low
  | medium
  | high
deriving DecidableEq, Repr

/-- Ordinal rank of a risk level: low < medium < high. -/
def RiskLevel.rank : RiskLevel → ℕ
  | .low => 0
  | .medium => 1
  | .high => 2

/-- A stream of `Math.random()` draws, indexed by call order. -/
def Rand : Type := ℕ → ℚ

/-- The `Math.random()` contract: every draw lies in `[0, 1)`. -/
def RandValid (r : Rand) : Prop := ∀ i, 0 ≤ r i ∧ r i < 1

namespace WebcamFeed

/-- A bounding box of the webcam component (`{x, y, width, height}`,
normalized coordinates; this variant carries no confidence field). -/
structure Box where
  x : ℚ
  y : ℚ
  width : ℚ
  height : ℚ
deriving DecidableEq, Repr

/-- `DetectionResult` of `src/components/webcam-feed.tsx`:
`{count, riskLevel, boundingBoxes}`. -/
structure DetectionResult where
  count : ℕ
  riskLevel : RiskLevel
  boundingBoxes : List Box
deriving DecidableEq, Repr

/-- The inline risk-banding of `generateMockDetections`
(webcam-feed.tsx lines 193–195):
`let riskLevel = "low"; if (count > 7) riskLevel = "high";
else if (count > 4) riskLevel = "medium"`. -/
def classify (count : ℕ) : RiskLevel :=
  if count > 7 then .high
  else if count > 4 then .medium
  else .low

/-- `generateMockDetections` of webcam-feed.tsx (lines 184–198):
`count = Math.floor(Math.random() * 10) + 1`, then `count` boxes each drawing
x, y, width, height in that order from `Math.random()`. -/
def generateMockDetections (rand : Rand) : DetectionResult :=
  let count : ℕ := (⌊rand 0 * 10⌋).toNat + 1
  let boundingBoxes : List Box := (List.range count).map (fun i =>
    { x := rand (4 * i + 1) * (7/10) + 1/10
      y := rand (4 * i + 2) * (3/5) + 1/10
      width := 1/10 + rand (4 * i + 3) * (1/20)
      height := 3/20 + rand (4 * i + 4) * (1/10) })
  { count := count, riskLevel := classify count, boundingBoxes := boundingBoxes }

/-- `detectCrowd` of webcam-feed.tsx (lines 164–182): on a successful fetch the
parsed response is returned; any thrown error (network failure, non-OK status,
JSON failure) is caught and `generateMockDetections()` is returned instead. -/
def detectCrowd (fetchResult : Except String DetectionResult) (rand : Rand) :
    DetectionResult :=
  match fetchResult with
  | .ok result => result
  | .error _ => generateMockDetections rand

/-- The people count the component renders: `detections?.count || 0`
(webcam-feed.tsx line 424; JavaScript `||` yields 0 when `detections` is
absent and also when `count` itself is 0). -/
def displayedCount (detections : Option DetectionResult) : ℕ :=
  match detections with
  | none => 0
  | some d => if d.count = 0 then 0 else d.count

/-- A capture track of the acquired `MediaStream`. -/
structure Track where
  id : ℕ
deriving DecidableEq, Repr

/-- The mounted `<video>` element: only its `srcObject` matters here
(a stream identifier, or `null`). -/
structure VideoElement where
  srcObject : Option ℕ
deriving DecidableEq, Repr

/-- The component's mutable refs and state touched by `initializeWebcam` /
`stopWebcam`: `streamRef.current`, `videoRef.current`,
`isWebcamActive`, `isWebcamEnabled`, `detectionIntervalRef.current`, and the
`error` state. `stoppedTracks` records every track on which `.stop()` has
been called (a track object outlives the dropped stream reference). -/
structure ComponentState where
  stream : Option (List Track)
  videoElement : Option VideoElement
  isWebcamActive : Bool
  isWebcamEnabled : Bool
  detectionInterval : Option ℕ
  errorMsg : Option String
  stoppedTracks : List Track
deriving DecidableEq, Repr

/-- `stopWebcam` (webcam-feed.tsx lines 92–112): if a stream is held, stop
each of its tracks and clear `streamRef.current`; if the video element is
mounted, null out its `srcObject`; set `isWebcamActive` to false; clear the
detection interval if one is set. -/
def stopWebcam (s : ComponentState) : ComponentState :=
  { s with
    stoppedTracks := s.stoppedTracks ++ s.stream.getD []
    stream := none
    videoElement := s.videoElement.map (fun _ => ⟨none⟩)
    isWebcamActive := false
    detectionInterval := none }

/-- `initializeWebcam` (webcam-feed.tsx lines 64–90): return immediately if a
stream is already held; otherwise await `getUserMedia` (modelled by the
`acquired` argument). On rejection, set the error message and disable the
webcam. On success, if the component was disabled while waiting, stop the
fresh tracks and return; otherwise store the stream, mark the webcam active
and clear the error. -/
def initializeWebcam (s : ComponentState) (acquired : Except String (List Track)) :
    ComponentState :=
  if s.stream.isSome then s
  else
    match acquired with
    | .error _ =>
      { s with
        errorMsg := some "Unable to access webcam. Please check permissions."
        isWebcamActive := false
        isWebcamEnabled := false }
    | .ok tracks =>
      if ¬ s.isWebcamEnabled then
        { s with stoppedTracks := s.stoppedTracks ++ tracks }
      else
        { s with stream := some tracks, isWebcamActive := true, errorMsg := none }

end WebcamFeed

namespace DetectApi

/-- A bounding box of the API route's mock generator
(`{x, y, width, height, confidence}`). -/
structure Box where
  x : ℚ
  y : ℚ
  width : ℚ
  height : ℚ
  confidence : ℚ
deriving DecidableEq, Repr

/-- The detection payload returned by the `/api/detect-crowd` route. -/
structure DetectionResult where
  count : ℕ
  riskLevel : RiskLevel
  boundingBoxes : List Box
deriving DecidableEq, Repr

/-- The inline risk-banding of the route's `generateMockDetections`
(part_004 lines 61–63): `if (count > 10) riskLevel = "high";
else if (count > 6) riskLevel = "medium"; else low`. -/
def classify (count : ℕ) : RiskLevel :=
  if count > 10 then .high
  else if count > 6 then .medium
  else .low

/-- `generateMockDetections` of the route handler (part_004 / part_006):
`count = Math.floor(Math.random() * 15) + 1`, then `count` boxes each drawing
x, y, width, height, confidence in that order. -/
def generateMockDetections (rand : Rand) : DetectionResult :=
  let count : ℕ := (⌊rand 0 * 15⌋).toNat + 1
  let boundingBoxes : List Box := (List.range count).map (fun i =>
    { x := rand (5 * i + 1) * (7/10) + 1/10
      y := rand (5 * i + 2) * (3/5) + 1/10
      width := 2/25 + rand (5 * i + 3) * (3/50)
      height := 3/25 + rand (5 * i + 4) * (1/10)
      confidence := 7/10 + rand (5 * i + 5) * (3/10) })
  { count := count, riskLevel := classify count, boundingBoxes := boundingBoxes }

/-- `confidence` lies in the unit interval (Boolean form, for closed checks). -/
def confInUnit (b : Box) : Bool :=
  decide (0 ≤ b.confidence) && decide (b.confidence ≤ 1)

/-- The HTTP response of the route handler. -/
inductive ApiResponse
  | ok (d : DetectionResult)
  | badRequest
  | serverError
deriving DecidableEq, Repr

/-- What one invocation of the route handler did: the returned response,
whether the Firestore alert write succeeded, and whether the push
notification path was invoked. -/
structure PostOutcome where
  response : ApiResponse
  alertStored : Bool
  pushSent : Bool
deriving DecidableEq, Repr

/-- The mock-backed `POST` handler (part_004 / part_006): reject a missing
image with 400; otherwise generate mock detections; if `riskLevel` is high,
try to store an alert in Firestore (a thrown write error is caught and only
logged) and send the push notification; finally return the detections.
`firestoreFails` says whether the `addDoc` call throws on this request. -/
def postDetect (hasImage : Bool) (rand : Rand) (firestoreFails : Bool) :
    PostOutcome :=
  if ¬ hasImage then ⟨.badRequest, false, false⟩
  else
    let d := generateMockDetections rand
    if d.riskLevel = .high then
      ⟨.ok d, ¬ firestoreFails, true⟩
    else
      ⟨.ok d, false, false⟩

/-- The ML-proxy `POST` handler (part_003): reject a missing image with 400;
forward to the inference server — a thrown fetch error or non-OK status
reaches the outer catch and yields a 500; on success, if `riskLevel` is high,
try the Firestore write (caught on failure) and send the push; return the
inference result. -/
def postDetectML (hasImage : Bool) (mlResult : Except String DetectionResult)
    (firestoreFails : Bool) : PostOutcome :=
  if ¬ hasImage then ⟨.badRequest, false, false⟩
  else
    match mlResult with
    | .error _ => ⟨.serverError, false, false⟩
    | .ok d =>
      if d.riskLevel = .high then
        ⟨.ok d, ¬ firestoreFails, true⟩
      else
        ⟨.ok d, false, false⟩

/-- The per-frame alert emissions of a sequence of requests against the
mock-backed handler: the handler keeps no state between requests, so each
frame's emission depends only on that frame. -/
def processSequence (rands : List Rand) : List Bool :=
  rands.map (fun r => (postDetect true r false).pushSent)

/-- Modelled from the spec: the repository applies no IoU suppression, so no
IoU code exists under `src/`. This is the glossary's Intersection-over-Union
("overlap ratio between two boxes"), stated here for the route's normalized
`{x, y, width, height}` boxes in order to formalise the overlap claim. -/
def intersectionArea (a b : Box) : ℚ :=
  max 0 (min (a.x + a.width) (b.x + b.width) - max a.x b.x) *
    max 0 (min (a.y + a.height) (b.y + b.height) - max a.y b.y)

/-- Modelled from the spec: Intersection-over-Union of two boxes
(intersection area over union area). -/
def iou (a b : Box) : ℚ :=
  intersectionArea a b /
    (a.width * a.height + b.width * b.height - intersectionArea a b)

end DetectApi

/-- Modelled from the spec (§4.4 RiskClassifier): the pure banded function
`classify(total_people, thresholds)`: `low` if count < medium_threshold,
`medium` if count < high_threshold, else `high`. No parameterised classifier
exists under `src/`; the two inline classifiers above are compared with it. -/
def classifySpec (mediumThreshold highThreshold count : ℕ) : RiskLevel :=
  if count < mediumThreshold then .low
  else if count < highThreshold then .medium
  else .high

/-- Squared Euclidean distance between 2D centroids. -/
def dist2 (p q : ℚ × ℚ) : ℚ := (p.1 - q.1) ^ 2 + (p.2 - q.2) ^ 2

/-- Modelled from the spec (§4.3 SpatialClusterer; no clustering code exists
under `src/`): fold one point into the running groups — merge every group
that has a member within the neighbourhood radius (single-linkage,
density-based), processed in list order so the result is deterministic. -/
def addPoint (eps2 : ℚ) (groups : List (List (ℚ × ℚ))) (p : ℚ × ℚ) :
    List (List (ℚ × ℚ)) :=
  let isNear := fun (g : List (ℚ × ℚ)) => g.any (fun q => decide (dist2 p q ≤ eps2))
  (p :: (groups.filter isNear).flatten) :: groups.filter (fun g => ! isNear g)

/-- Modelled from the spec (§4.3): group the points into
neighbourhood-radius connected components, in input order. -/
def clusterGroups (eps2 : ℚ) (points : List (ℚ × ℚ)) : List (List (ℚ × ℚ)) :=
  points.foldl (addPoint eps2) []

/-- Modelled from the spec (§4.3): `cluster(detections_or_tracks) ->
list[Cluster]` — only groups meeting the minimum-member threshold count as
clusters; the remaining points are isolated individuals. -/
def cluster (eps2 : ℚ) (minMembers : ℕ) (points : List (ℚ × ℚ)) :
    List (List (ℚ × ℚ)) :=
  (clusterGroups eps2 points).filter (fun g => decide (minMembers ≤ g.length))

/-- Modelled from the spec (§3 FrameMetrics): the externally visible
per-frame artifact `{total_people, num_groups, density_level}` (sequence
number, timestamp and fps are transport fields carrying no logic). -/
structure FrameMetrics where
  total_people : ℕ
  num_groups : ℕ
  density_level : RiskLevel
deriving DecidableEq, Repr

/-- Modelled from the spec (§3 invariant): `total_people` is the number of
retained detections, `num_groups` the number of clusters, `density_level`
the classifier applied to `total_people`. -/
def frameMetrics (mediumThreshold highThreshold : ℕ) (eps2 : ℚ)
    (minMembers : ℕ) (points : List (ℚ × ℚ)) : FrameMetrics :=
  { total_people := points.length
    num_groups := (cluster eps2 minMembers points).length
    density_level := classifySpec mediumThreshold highThreshold points.length }

/-- The property claimed of a classifier: it is the banded function with a
medium threshold in 5–6 and a high threshold in 10–11. -/
def BandedWithDefaultThresholds (f : ℕ → RiskLevel) : Prop :=
  ∃ mt ht : ℕ, 5 ≤ mt ∧ mt ≤ 6 ∧ 10 ≤ ht ∧ ht ≤ 11 ∧
    ∀ count, f count = classifySpec mt ht count

/-- The edge-triggered alert property claimed of the detection endpoint: in a
two-frame sequence whose frames are both high-risk, the two frames do not
both emit an alert. -/
def EdgeTriggeredAlerts : Prop :=
  ∀ r1 r2 : Rand,
    (DetectApi.generateMockDetections r1).riskLevel = .high →
    (DetectApi.generateMockDetections r2).riskLevel = .high →
    DetectApi.processSequence [r1, r2] ≠ [true, true]

/-- The retention property claimed of the detection result: confidences lie
in the unit interval and no two retained boxes overlap with IoU above the
threshold. -/
def RetainedDetectionsOK (iouThreshold : ℚ) : Prop :=
  ∀ r : Rand, RandValid r →
    (∀ b ∈ (DetectApi.generateMockDetections r).boundingBoxes,
        0 ≤ b.confidence ∧ b.confidence ≤ 1) ∧
    (DetectApi.generateMockDetections r).boundingBoxes.Pairwise
      (fun a b => DetectApi.iou a b ≤ iouThreshold)

/-- The all-zero draw stream. -/
def zeroRand : Rand := fun _ => 0

/-- A draw stream whose every draw is 9/10: the route's mock generator then
reports 14 people, which classifies as high risk. -/
def rHigh : Rand := fun _ => 9/10

/-- A draw stream with first draw 1/10 and all further draws 0: the route's
mock generator then returns two identical bounding boxes. -/
def rPair : Rand := fun i => if i = 0 then 1/10 else 0

end CrowdVision

open CrowdVision

/-- Helper: with every draw in `[0, 1)`, `Math.floor(draw * c) + 1` is at
most `n` whenever `c ≤ n`. -/
theorem mock_count_le (q c : ℚ) (n : ℕ) (h0 : 0 ≤ q) (h1 : q < 1)
    (hc : 0 < c) (hcn : c ≤ (n : ℚ)) : (⌊q * c⌋).toNat + 1 ≤ n := by
  have hqc : q * c < (n : ℚ) :=
    lt_of_lt_of_le (by nlinarith [mul_pos (sub_pos.mpr h1) hc]) hcn
  have hfl : ⌊q * c⌋ < (n : ℤ) := Int.floor_lt.mpr (by exact_mod_cast hqc)
  have hfl0 : 0 ≤ ⌊q * c⌋ := Int.floor_nonneg.mpr (mul_nonneg h0 hc.le)
  omega

/-- C5: the risk classification is monotone — for counts `a ≤ b`, the level
assigned to `a` is at or below the level assigned to `b` in the ordinal
order low < medium < high, for both inline classifiers. -/
theorem C5_classify_monotone (a b : ℕ) (hab : a ≤ b) :
    (WebcamFeed.classify a).rank ≤ (WebcamFeed.classify b).rank ∧
    (DetectApi.classify a).rank ≤ (DetectApi.classify b).rank := by
  constructor <;>
    simp only [WebcamFeed.classify, DetectApi.classify] <;>
    split_ifs <;> simp [RiskLevel.rank] <;> omega

/-- Witness for C5 at the concrete pair (3, 9). -/
theorem C5_classify_monotone_witness :
    (WebcamFeed.classify 3).rank ≤ (WebcamFeed.classify 9).rank ∧
    (DetectApi.classify 3).rank ≤ (DetectApi.classify 9).rank :=
  C5_classify_monotone 3 9 (by decide)

/-- C3 counterexample: no pair of thresholds with medium in 5–6 and high in
10–11 makes the banded function agree with the code's classifiers — the
webcam classifier already returns high at count 8. -/
theorem C3_counterexample :
    ¬ (BandedWithDefaultThresholds WebcamFeed.classify ∧
       BandedWithDefaultThresholds DetectApi.classify) := by
  rintro ⟨⟨mt, ht, hmt1, hmt2, hht1, hht2, hall⟩, -⟩
  have h8 := hall 8
  have hW : WebcamFeed.classify 8 = .high := by decide
  rw [hW] at h8
  unfold classifySpec at h8
  rw [if_neg (by omega), if_pos (by omega)] at h8
  exact absurd h8 (by decide)

/-- C3 amended: each classifier is the banded function, but with thresholds
(medium 5, high 8) for the webcam variant and (medium 7, high 11) for the
route variant. -/
theorem C3_banded_actual_thresholds (count : ℕ) :
    WebcamFeed.classify count = classifySpec 5 8 count ∧
    DetectApi.classify count = classifySpec 7 11 count := by
  constructor <;>
    simp only [WebcamFeed.classify, DetectApi.classify, classifySpec] <;>
    split_ifs <;> first | rfl | omega

/-- C4: a frame with zero detections yields `total_people = 0`,
`num_groups = 0` and `density_level = low`; both inline classifiers map
count 0 to low, and the component displays 0 people when no detection
result is present. -/
theorem C4_zero_detections (mt ht : ℕ) (hmt : 0 < mt) (eps2 : ℚ)
    (minMembers : ℕ) :
    (frameMetrics mt ht eps2 minMembers []).total_people = 0 ∧
    (frameMetrics mt ht eps2 minMembers []).num_groups = 0 ∧
    (frameMetrics mt ht eps2 minMembers []).density_level = .low ∧
    WebcamFeed.classify 0 = .low ∧
    DetectApi.classify 0 = .low ∧
    WebcamFeed.displayedCount none = 0 := by
  refine ⟨rfl, rfl, ?_, rfl, rfl, rfl⟩
  simp [frameMetrics, classifySpec, hmt]

/-- Witness for C4 at thresholds (5, 10), radius 1, minimum members 2. -/
theorem C4_zero_detections_witness :
    (frameMetrics 5 10 1 2 []).total_people = 0 ∧
    (frameMetrics 5 10 1 2 []).num_groups = 0 ∧
    (frameMetrics 5 10 1 2 []).density_level = .low ∧
    WebcamFeed.classify 0 = .low ∧
    DetectApi.classify 0 = .low ∧
    WebcamFeed.displayedCount none = 0 :=
  C4_zero_detections 5 10 (by decide) 1 2

/-- C6: the detection and clustering path is deterministic — equal draw
streams, equal fetch results and equal point sets give identical results. -/
theorem C6_determinism (r1 r2 : Rand) (hr : ∀ i, r1 i = r2 i)
    (f1 f2 : Except String WebcamFeed.DetectionResult) (hf : f1 = f2)
    (eps2 : ℚ) (minMembers : ℕ) (ps1 ps2 : List (ℚ × ℚ)) (hp : ps1 = ps2) :
    WebcamFeed.detectCrowd f1 r1 = WebcamFeed.detectCrowd f2 r2 ∧
    DetectApi.generateMockDetections r1 = DetectApi.generateMockDetections r2 ∧
    cluster eps2 minMembers ps1 = cluster eps2 minMembers ps2 := by
  have hr2 : r1 = r2 := funext hr
  subst hr2; subst hf; subst hp
  exact ⟨rfl, rfl, rfl⟩

/-- Witness for C6 at the zero stream, a fixed error result, and the empty
point set. -/
theorem C6_determinism_witness :
    WebcamFeed.detectCrowd (Except.error "e") zeroRand =
      WebcamFeed.detectCrowd (Except.error "e") zeroRand ∧
    DetectApi.generateMockDetections zeroRand =
      DetectApi.generateMockDetections zeroRand ∧
    cluster 1 2 [] = cluster 1 2 [] :=
  C6_determinism zeroRand zeroRand (fun _ => rfl)
    (Except.error "e") (Except.error "e") rfl 1 2 [] [] rfl

/-- C8: a Firestore write failure is absorbed — the mock-backed and ML-proxy
handlers return the same response whether or not the alert write throws, and
that response carries the detection result unchanged. -/
theorem C8_firestore_failure_not_blocking (r : Rand)
    (ml : DetectApi.DetectionResult) :
    (DetectApi.postDetect true r true).response =
      (DetectApi.postDetect true r false).response ∧
    (DetectApi.postDetect true r true).response =
      .ok (DetectApi.generateMockDetections r) ∧
    (DetectApi.postDetectML true (Except.ok ml) true).response =
      (DetectApi.postDetectML true (Except.ok ml) false).response ∧
    (DetectApi.postDetectML true (Except.ok ml) true).response = .ok ml := by
  unfold DetectApi.postDetect DetectApi.postDetectML
  by_cases h : (DetectApi.generateMockDetections r).riskLevel = .high <;>
    by_cases h2 : ml.riskLevel = .high <;> simp [h, h2]

/-- C9: `stopWebcam` is idempotent — a second invocation leaves the state of
the first (stream cleared, video source cleared, detection interval cleared,
no further tracks stopped) — and `initializeWebcam` is re-entry-safe: while
a stream is already held it returns without acquiring a second one. -/
theorem C9_stop_idempotent_start_reentrant (s : WebcamFeed.ComponentState)
    (acquired : Except String (List WebcamFeed.Track)) :
    WebcamFeed.stopWebcam (WebcamFeed.stopWebcam s) = WebcamFeed.stopWebcam s ∧
    (WebcamFeed.stopWebcam s).stream = none ∧
    (WebcamFeed.stopWebcam s).detectionInterval = none ∧
    (s.stream.isSome = true → WebcamFeed.initializeWebcam s acquired = s) := by
  refine ⟨?_, rfl, rfl, ?_⟩
  · unfold WebcamFeed.stopWebcam
    cases s.videoElement <;> simp
  · intro hs
    unfold WebcamFeed.initializeWebcam
    rw [if_pos hs]

/-- Witness for C9 at a state holding one stream track, a mounted video
element and a live detection interval. -/
theorem C9_stop_idempotent_start_reentrant_witness :
    WebcamFeed.stopWebcam (WebcamFeed.stopWebcam
        ⟨some [⟨0⟩], some ⟨some 0⟩, true, true, some 1, none, []⟩) =
      WebcamFeed.stopWebcam
        ⟨some [⟨0⟩], some ⟨some 0⟩, true, true, some 1, none, []⟩ ∧
    WebcamFeed.initializeWebcam
        ⟨some [⟨0⟩], some ⟨some 0⟩, true, true, some 1, none, []⟩
        (Except.ok [⟨1⟩]) =
      ⟨some [⟨0⟩], some ⟨some 0⟩, true, true, some 1, none, []⟩ :=
  ⟨(C9_stop_idempotent_start_reentrant
      ⟨some [⟨0⟩], some ⟨some 0⟩, true, true, some 1, none, []⟩
      (Except.ok [⟨1⟩])).1,
   (C9_stop_idempotent_start_reentrant
      ⟨some [⟨0⟩], some ⟨some 0⟩, true, true, some 1, none, []⟩
      (Except.ok [⟨1⟩])).2.2.2 rfl⟩

/-- C10: every mock detection result reports at least one person — the route
variant's count lies in 1..15, the webcam variant's in 1..10, and in both
variants the count equals the number of bounding boxes returned. -/
theorem C10_mock_reports_at_least_one (r : Rand) (h : RandValid r) :
    (1 ≤ (DetectApi.generateMockDetections r).count ∧
     (DetectApi.generateMockDetections r).count ≤ 15 ∧
     (DetectApi.generateMockDetections r).boundingBoxes.length =
       (DetectApi.generateMockDetections r).count) ∧
    (1 ≤ (WebcamFeed.generateMockDetections r).count ∧
     (WebcamFeed.generateMockDetections r).count ≤ 10 ∧
     (WebcamFeed.generateMockDetections r).boundingBoxes.length =
       (WebcamFeed.generateMockDetections r).count) := by
  obtain ⟨h0, h1⟩ := h 0
  refine ⟨⟨?_, ?_, ?_⟩, ⟨?_, ?_, ?_⟩⟩
  · simp [DetectApi.generateMockDetections]
  · have := mock_count_le (r 0) 15 15 h0 h1 (by norm_num) (by norm_num)
    simpa [DetectApi.generateMockDetections] using this
  · simp [DetectApi.generateMockDetections]
  · simp [WebcamFeed.generateMockDetections]
  · have := mock_count_le (r 0) 10 10 h0 h1 (by norm_num) (by norm_num)
    simpa [WebcamFeed.generateMockDetections] using this
  · simp [WebcamFeed.generateMockDetections]

/-- Witness for C10 at the zero draw stream. -/
theorem C10_mock_reports_at_least_one_witness :
    (1 ≤ (DetectApi.generateMockDetections zeroRand).count ∧
     (DetectApi.generateMockDetections zeroRand).count ≤ 15 ∧
     (DetectApi.generateMockDetections zeroRand).boundingBoxes.length =
       (DetectApi.generateMockDetections zeroRand).count) ∧
    (1 ≤ (WebcamFeed.generateMockDetections zeroRand).count ∧
     (WebcamFeed.generateMockDetections zeroRand).count ≤ 10 ∧
     (WebcamFeed.generateMockDetections zeroRand).boundingBoxes.length =
       (WebcamFeed.generateMockDetections zeroRand).count) :=
  C10_mock_reports_at_least_one zeroRand
    (fun i => ⟨by norm_num [zeroRand], by norm_num [zeroRand]⟩)

/-- C1 counterexample: at the zero draw stream, a failing detection call
makes `detectCrowd` report one person with one bounding box — not an empty
detection list. -/
theorem C1_counterexample :
    (WebcamFeed.detectCrowd (Except.error "API Error (500)") zeroRand).count
      = 1 ∧
    (WebcamFeed.detectCrowd (Except.error "API Error (500)")
      zeroRand).boundingBoxes ≠ [] := by
  have hc : (⌊zeroRand 0 * 10⌋).toNat + 1 = 1 := by
    norm_num [zeroRand, Int.toNat]
  constructor
  · simp [WebcamFeed.detectCrowd, WebcamFeed.generateMockDetections, hc]
  · simp [WebcamFeed.detectCrowd, WebcamFeed.generateMockDetections, hc,
      List.range_succ]

/-- C1 amended: for every frame whose detection call fails, `detectCrowd`
substitutes the webcam mock generator's result — a detection list reporting
between 1 and 10 people, never an empty one. -/
theorem C1_failure_substitutes_mock (e : String) (r : Rand)
    (h : RandValid r) :
    WebcamFeed.detectCrowd (Except.error e) r =
      WebcamFeed.generateMockDetections r ∧
    1 ≤ (WebcamFeed.detectCrowd (Except.error e) r).count ∧
    (WebcamFeed.detectCrowd (Except.error e) r).count ≤ 10 := by
  obtain ⟨h0, h1⟩ := h 0
  refine ⟨rfl, ?_, ?_⟩
  · simp [WebcamFeed.detectCrowd, WebcamFeed.generateMockDetections]
  · have := mock_count_le (r 0) 10 10 h0 h1 (by norm_num) (by norm_num)
    simpa [WebcamFeed.detectCrowd, WebcamFeed.generateMockDetections]
      using this

/-- Witness for C1 amended at the error string of a 500 response and the
zero draw stream. -/
theorem C1_failure_substitutes_mock_witness :
    WebcamFeed.detectCrowd (Except.error "API Error (500)") zeroRand =
      WebcamFeed.generateMockDetections zeroRand ∧
    1 ≤ (WebcamFeed.detectCrowd (Except.error "API Error (500)")
          zeroRand).count ∧
    (WebcamFeed.detectCrowd (Except.error "API Error (500)")
      zeroRand).count ≤ 10 :=
  C1_failure_substitutes_mock "API Error (500)" zeroRand
    (fun i => ⟨by norm_num [zeroRand], by norm_num [zeroRand]⟩)

/-- C2 counterexample: the detection endpoint is not edge-triggered — two
consecutive requests that both classify as high risk both emit an alert
(the handler keeps no state between frames). -/
theorem C2_counterexample : ¬ EdgeTriggeredAlerts := by
  intro h
  have hH : (DetectApi.generateMockDetections rHigh).riskLevel = .high := by
    have hc : (⌊rHigh 0 * 15⌋).toNat + 1 = 14 := by
      norm_num [rHigh, Int.toNat]
    simp [DetectApi.generateMockDetections, hc, DetectApi.classify]
  exact h rHigh rHigh hH hH
    (by simp [DetectApi.processSequence, DetectApi.postDetect, hH])

/-- C2 amended: alerting is level-triggered — each handler invocation emits
an alert exactly when the current frame's risk level is high, independent of
any previous frame. -/
theorem C2_level_triggered (r : Rand) (firestoreFails : Bool)
    (ml : DetectApi.DetectionResult) :
    (DetectApi.postDetect true r firestoreFails).pushSent =
      decide ((DetectApi.generateMockDetections r).riskLevel = .high) ∧
    (DetectApi.postDetectML true (Except.ok ml) firestoreFails).pushSent =
      decide (ml.riskLevel = .high) := by
  refine ⟨?_, ?_⟩
  · by_cases hd : (DetectApi.generateMockDetections r).riskLevel = .high <;>
      simp [DetectApi.postDetect, hd]
  · by_cases hd : ml.riskLevel = .high <;> simp [DetectApi.postDetectML, hd]

/-- C7 counterexample: no IoU suppression is applied — at a draw stream
within the `Math.random()` contract the route's mock generator returns two
identical bounding boxes, whose IoU is 1, above the default threshold 0.45. -/
theorem C7_counterexample : ¬ RetainedDetectionsOK (45/100) := by
  intro h
  have hvalid : RandValid rPair := by
    intro i
    by_cases hi : i = 0 <;> norm_num [rPair, hi]
  have hc : (⌊rPair 0 * 15⌋).toNat + 1 = 2 := by
    norm_num [rPair, Int.toNat]
  have hboxes : (DetectApi.generateMockDetections rPair).boundingBoxes =
      [⟨1/10, 1/10, 2/25, 3/25, 7/10⟩, ⟨1/10, 1/10, 2/25, 3/25, 7/10⟩] := by
    simp [DetectApi.generateMockDetections, hc, List.range_succ]
    refine ⟨⟨?_, ?_, ?_, ?_, ?_⟩, ⟨?_, ?_, ?_, ?_, ?_⟩⟩ <;> norm_num [rPair]
  have hp := (h rPair hvalid).2
  rw [hboxes, List.pairwise_cons] at hp
  have hle := hp.1 ⟨1/10, 1/10, 2/25, 3/25, 7/10⟩ (List.mem_singleton.mpr rfl)
  have hiou : DetectApi.iou ⟨1/10, 1/10, 2/25, 3/25, 7/10⟩
      ⟨1/10, 1/10, 2/25, 3/25, 7/10⟩ = 1 := by
    norm_num [DetectApi.iou, DetectApi.intersectionArea]
  rw [hiou] at hle
  norm_num at hle

/-- C7 amended: every retained detection of the route's generator has
confidence in the unit interval (indeed in [0.7, 1)); the overlap half of
the claim fails because the code applies no IoU suppression. -/
theorem C7_confidences_in_unit (r : Rand) (h : RandValid r) :
    ((DetectApi.generateMockDetections r).boundingBoxes.all
      DetectApi.confInUnit) = true := by
  rw [List.all_eq_true]
  intro b hb
  simp only [DetectApi.generateMockDetections, List.mem_map,
    List.mem_range] at hb
  obtain ⟨i, hi, rfl⟩ := hb
  simp only [DetectApi.confInUnit, Bool.and_eq_true, decide_eq_true_eq]
  obtain ⟨hl, hu⟩ := h (5 * i + 5)
  constructor
  · nlinarith [hl]
  · nlinarith [hu]

/-- Witness for C7 amended at the zero draw stream. -/
theorem C7_confidences_in_unit_witness :
    ((DetectApi.generateMockDetections zeroRand).boundingBoxes.all
      DetectApi.confInUnit) = true :=
  C7_confidences_in_unit zeroRand
    (fun i => ⟨by norm_num [zeroRand], by norm_num [zeroRand]⟩)
